import Mathlib

/-!
Shallow embedding of the RAG orchestration layer of the AI-tutor backend
(`backend/rag_service.py`, `backend/app.py`, `backend/models.py`,
`backend/utils.py`, `backend/config.py`).

External collaborators (embedding provider, vector index, generative model,
and the langchain chain/splitter machinery, which is library code not part of
this repository) are modelled as explicit parameters or from the
specification; such definitions carry a doc comment starting
`Modelled from the spec:`.
-/

namespace AITutor

/-! ## Emotion classifier (`backend/utils.py`, `detect_emotion`) -/

/-- Boolean test that `n` is a prefix of `h`, over character lists. -/
def isPre : List Char → List Char → Bool
  | [], _ => true
  | _ :: _, [] => false
  | a :: as, b :: bs => a == b && isPre as bs

/-- Boolean substring-occurrence test over character lists, the semantics of
Python `n in h` on strings. -/
def containsSub (n : List Char) : List Char → Bool
  | [] => isPre n []
  | h@(_ :: t) => isPre n h || containsSub n t

/-- Python `needle in hay` on strings. -/
def containsStr (needle hay : String) : Bool :=
  containsSub needle.data hay.data

/-- Embedding of Python `str.lower()` (faithful on ASCII text, which is all
that the classifier keywords use). -/
def lowerStr (s : String) : String :=
  ⟨s.data.map Char.toLower⟩

/-- `happy_keywords` from `detect_emotion`. -/
def happy_keywords : List String :=
  ["correct", "great", "excellent", "yes", "wonderful",
   "perfect", "awesome", "congratulations", "well done",
   "fantastic", "brilliant", "amazing", "good job"]

/-- `thinking_keywords` from `detect_emotion`. -/
def thinking_keywords : List String :=
  ["let me", "think", "consider", "analyze", "hmm",
   "interesting", "let\x27s see", "pondering", "evaluating",
   "contemplating"]

/-- `explaining_keywords` from `detect_emotion`. -/
def explaining_keywords : List String :=
  ["explain", "because", "therefore", "means", "definition",
   "concept", "understand", "basically", "essentially",
   "in other words", "for example", "specifically", "namely"]

/-- `confused_keywords` from `detect_emotion`. -/
def confused_keywords : List String :=
  ["sorry", "cannot", "don\x27t know", "unclear", "unsure",
   "confused", "not sure", "uncertain", "ambiguous",
   "difficult to say"]

/-- `detect_emotion` from `backend/utils.py`: lowercase the text, then check
the four keyword categories in priority order
happy, explaining, thinking, confused; otherwise neutral. -/
def detect_emotion (text : String) : String :=
  let text_lower := lowerStr text
  if happy_keywords.any (fun w => containsStr w text_lower) then "happy"
  else if explaining_keywords.any (fun w => containsStr w text_lower) then "explaining"
  else if thinking_keywords.any (fun w => containsStr w text_lower) then "thinking"
  else if confused_keywords.any (fun w => containsStr w text_lower) then "confused"
  else "neutral"

example : detect_emotion "That is correct!" = "happy" := by decide

example : detect_emotion "GREAT, because it is simple" = "happy" := by decide

example : detect_emotion "I will explain" = "explaining" := by decide

example : detect_emotion "zzz" = "neutral" := by decide

/-! ## Data model -/

/-- One indexed chunk of a document; `docId` is the source path/name,
`seqIx` the sequence index of the chunk within the document. -/
structure Chunk where
  docId : String
  seqIx : Nat
  text : String
deriving DecidableEq

/-- A loaded source document (one UTF-8 text file). -/
structure Document where
  source : String
  text : String
deriving DecidableEq

/-- One recorded conversation turn of a session
(a human question and the model answer, as stored by the buffer memory). -/
structure Turn where
  question : String
  answer : String
deriving DecidableEq

/-- Error raised by the generative-model call. -/
structure GenErr where
  msg : String
deriving DecidableEq

/-! ## Configuration (`backend/config.py`) -/

def CHUNK_SIZE : Nat := 1000

def CHUNK_OVERLAP : Nat := 200

def RETRIEVAL_K : Nat := 3

/-! ## Retriever (spec-modelled: the similarity search is performed by the
external Chroma vector store, which is library code, not in this repository) -/

/-- Sort key for retrieval results: descending similarity first, then
ascending `(docId, seqIx)` lexicographically. -/
def simKey (sim : Chunk → ℚ) (c : Chunk) : ℚ ×ₗ (String ×ₗ ℕ) :=
  toLex (-(sim c), toLex (c.docId, c.seqIx))

/-- Modelled from the spec: the retrieval result order — `a` precedes `b`
when `a` has strictly larger similarity, or equal similarity and
lexicographically smaller-or-equal `(document_id, sequence_index)`. -/
def rank (sim : Chunk → ℚ) (a b : Chunk) : Prop :=
  simKey sim a ≤ simKey sim b

instance (sim : Chunk → ℚ) : DecidableRel (rank sim) :=
  fun a b => inferInstanceAs (Decidable (simKey sim a ≤ simKey sim b))

instance (sim : Chunk → ℚ) : IsTotal Chunk (rank sim) :=
  ⟨fun a b => le_total (simKey sim a) (simKey sim b)⟩

instance (sim : Chunk → ℚ) : IsTrans Chunk (rank sim) :=
  ⟨fun _ _ _ h h' => le_trans h h'⟩

/-- Modelled from the spec: similarity search over the index for the `k`
nearest neighbours (the `search(vector, k)` capability of the external store):
matches ordered by descending similarity with ties broken by ascending
`(document_id, sequence_index)`, truncated to `k`. -/
def retrieveTopK (sim : Chunk → ℚ) (k : Nat) (index : List Chunk) : List Chunk :=
  (List.insertionSort (rank sim) index).take k

example : retrieveTopK (fun _ => 0) 3 [] = [] := by decide

/-! ## Chunker validation and index build
(`backend/rag_service.py`, `_create_vector_store`) -/

/-- Modelled from the spec: constructing the `RecursiveCharacterTextSplitter`
(library code, not in this repository) fails fast when
`chunk_overlap >= chunk_size`; otherwise it yields the configured splitter. -/
def mkTextSplitter (chunk_size chunk_overlap : Nat) : Except String (Nat × Nat) :=
  if chunk_size ≤ chunk_overlap then
    Except.error "chunk_overlap must be smaller than chunk_size"
  else
    Except.ok (chunk_size, chunk_overlap)

/-- `_create_vector_store` after document loading: raise
`No documents found in data directory` when the loader returned no documents;
otherwise construct the splitter (which may itself fail fast), split the
documents (the splitting itself is the work of the external splitter, passed in as
`splitWith`), and build the fresh index from the chunks. -/
def createVectorStore (chunk_size chunk_overlap : Nat)
    (splitWith : Nat → Nat → List Document → List Chunk)
    (docs : List Document) : Except String (List Chunk) :=
  if docs.isEmpty then
    Except.error "No documents found in data directory"
  else
    match mkTextSplitter chunk_size chunk_overlap with
    | Except.error e => Except.error e
    | Except.ok _ => Except.ok (splitWith chunk_size chunk_overlap docs)

/-! ## Session store (`RAGService.chat_memories`, a dict keyed by session id;
each entry is one `ConversationBufferMemory` holding the turns of that session) -/

/-- The `chat_memories` dict: session id to stored turn list. -/
abbrev SessionMap := List (String × List Turn)

/-- Python dict lookup on the session map (first matching key). -/
def lookupSession : SessionMap → String → Option (List Turn)
  | [], _ => none
  | (k, v) :: rest, sid => if k = sid then some v else lookupSession rest sid

/-- The stored history of a session (empty for a session never referenced). -/
def historyOf (m : SessionMap) (sid : String) : List Turn :=
  (lookupSession m sid).getD []

/-- Python `session_id in self.chat_memories`. -/
def hasSession (m : SessionMap) (sid : String) : Bool :=
  (lookupSession m sid).isSome

/-- The `if session_id not in self.chat_memories` branch of `RAGService.chat`:
insert a fresh empty memory on first reference, otherwise keep the map. -/
def ensureSession (m : SessionMap) (sid : String) : SessionMap :=
  if hasSession m sid then m else (sid, []) :: m

/-- Appending a completed turn to the buffer memory of a session (the memory
update the chain performs after a successful generation). -/
def appendTurn (m : SessionMap) (sid : String) (t : Turn) : SessionMap :=
  m.map (fun p => if p.1 = sid then (p.1, p.2 ++ [t]) else p)

/-! ## Prompt construction -/

/-- The `"\n\n"` separator used by `RAGService.query` to join chunk texts. -/
def delim : String := "\n\n"

/-- Python `"\n\n".join(doc.page_content for doc in docs)`. -/
def joinContext : List Chunk → String
  | [] => ""
  | [d] => d.text
  | d :: rest => d.text ++ (delim ++ joinContext rest)

/-- The f-string prompt of `RAGService.query`: system instruction, the
joined chunk texts, the question, and the answer cue. -/
def queryPrompt (docs : List Chunk) (question : String) : String :=
  "You are a friendly AI tutor. Answer clearly and concisely.\n\nContext: "
    ++ joinContext docs ++ "\n\nQuestion: " ++ question ++ "\n\nAnswer:"

/-- Rendering of one stored turn for prompt/history text. -/
def renderTurn (t : Turn) : String :=
  "Human: " ++ t.question ++ "\nAssistant: " ++ t.answer

/-- Chronological rendering of the turns of a session, newline separated. -/
def renderHistory : List Turn → String
  | [] => ""
  | [t] => renderTurn t
  | t :: rest => renderTurn t ++ ("\n" ++ renderHistory rest)

/-- Modelled from the spec: the condensation request sent to the generative
model when history is non-empty — it is built from the history and the new
question only (the condensation step does not depend on retrieval). -/
def condensePrompt (hist : List Turn) (question : String) : String :=
  "Rephrase the follow up question as a standalone question.\n\n"
    ++ renderHistory hist ++ "\nFollow Up Input: " ++ question
    ++ "\nStandalone question:"

/-- Modelled from the spec, conversational protocol step 2: with empty
history the condensed query is the raw question (and no model call is made);
with non-empty history the question is condensed by the generative model from
history context. The second component records the prompts sent to the model. -/
def condenseQuery (gen : String → Except GenErr String) (hist : List Turn)
    (question : String) : Except GenErr String × List String :=
  if hist.isEmpty then (Except.ok question, [])
  else (gen (condensePrompt hist question), [condensePrompt hist question])

/-- Modelled from the spec, conversational protocol step 4: the final
generation prompt — system instruction, retrieved chunk texts, the full prior
turn history, and the original (uncondensed) question. -/
def chatPrompt (docs : List Chunk) (hist : List Turn) (question : String) : String :=
  "You are a friendly AI tutor. Answer clearly and concisely." ++ delim
    ++ joinContext docs ++ delim ++ renderHistory hist ++ delim ++ question

/-! ## Generation protocols (`RAGService.query`, `RAGService.chat`) -/

/-- Outcome of the single-query protocol: the fallible result and the list of
prompts sent to the generative model (one entry per model invocation). -/
structure QueryOutcome where
  result : Except GenErr (String × List Chunk)
  genLog : List String

/-- `RAGService.query`: retrieve for the question, build the prompt, invoke
the generative model once, and return its output verbatim with the retrieved
chunks; a generation failure propagates to the caller. -/
def query (gen : String → Except GenErr String) (retr : String → List Chunk)
    (question : String) : QueryOutcome :=
  let docs := retr question
  let prompt := queryPrompt docs question
  match gen prompt with
  | Except.error e => ⟨Except.error e, [prompt]⟩
  | Except.ok resp => ⟨Except.ok (resp, docs), [prompt]⟩

/-- Outcome of the conversational protocol: the fallible result, the session
map after the call (the dict insertion of a fresh memory persists even when
the turn fails, with no turns appended), and the prompts sent to the model. -/
structure ChatOutcome where
  result : Except GenErr (String × List Chunk)
  state : SessionMap
  genLog : List String

/-- `RAGService.chat` with the chain semantics modelled from the spec:
ensure the session memory exists, condense the question against the prior
history, retrieve with the condensed query, generate from the final prompt
built with the original question, and only on success append the new turn to
the session; any generation failure propagates and appends nothing. -/
def chat (gen : String → Except GenErr String) (retr : String → List Chunk)
    (m : SessionMap) (question sid : String) : ChatOutcome :=
  let m1 := ensureSession m sid
  let hist := historyOf m1 sid
  match condenseQuery gen hist question with
  | (Except.error e, log) => ⟨Except.error e, m1, log⟩
  | (Except.ok cq, log) =>
    let docs := retr cq
    let prompt := chatPrompt docs hist question
    match gen prompt with
    | Except.error e => ⟨Except.error e, m1, log ++ [prompt]⟩
    | Except.ok ans =>
      ⟨Except.ok (ans, docs), appendTurn m1 sid ⟨question, ans⟩, log ++ [prompt]⟩

/-- Driver for a sequence of chat calls on one session: each list element is
the generative-model behaviour for that call together with the question. -/
def runChats (retr : String → List Chunk) (sid : String) :
    SessionMap → List ((String → Except GenErr String) × String) → SessionMap
  | m, [] => m
  | m, (g, q) :: rest => runChats retr sid (chat g retr m q sid).state rest

/-! ## Request models and endpoints (`backend/models.py`, `backend/app.py`) -/

/-- `QueryRequest` from `backend/models.py` (question, `min_length=1`). -/
structure QueryRequest where
  question : String
deriving DecidableEq

/-- `ChatRequest` from `backend/models.py` (question with `min_length=1`,
optional session id defaulting to `"default"`). -/
structure ChatRequest where
  question : String
  session_id : String
deriving DecidableEq

/-- Validation of a query request body: a missing question or one of length
less than 1 is rejected with `InvalidRequest` before any handler work. -/
def parseQueryRequest (question : Option String) : Except String QueryRequest :=
  match question with
  | none => Except.error "InvalidRequest"
  | some q =>
    if 1 ≤ q.length then Except.ok ⟨q⟩ else Except.error "InvalidRequest"

/-- Validation of a chat request body: same question rule, with the session
id defaulting to `"default"` when absent. -/
def parseChatRequest (question session_id : Option String) :
    Except String ChatRequest :=
  match question with
  | none => Except.error "InvalidRequest"
  | some q =>
    if 1 ≤ q.length then Except.ok ⟨q, session_id.getD "default"⟩
    else Except.error "InvalidRequest"

/-- `query_endpoint` from `backend/app.py`: validate, run the RAG query, and
attach the detected emotion of the answer; failures surface as errors. -/
def query_endpoint (gen : String → Except GenErr String)
    (retr : String → List Chunk) (question : Option String) :
    Except String (String × String) × List String :=
  match parseQueryRequest question with
  | Except.error e => (Except.error e, [])
  | Except.ok req =>
    let r := query gen retr req.question
    (match r.result with
     | Except.error e => Except.error e.msg
     | Except.ok (ans, _) => Except.ok (ans, detect_emotion ans),
     r.genLog)

/-- `chat_endpoint` from `backend/app.py`: validate, run the conversational
protocol, and attach the detected emotion of the answer. -/
def chat_endpoint (gen : String → Except GenErr String)
    (retr : String → List Chunk) (m : SessionMap)
    (question session_id : Option String) :
    Except String (String × String) × SessionMap × List String :=
  match parseChatRequest question session_id with
  | Except.error e => (Except.error e, m, [])
  | Except.ok req =>
    let r := chat gen retr m req.question req.session_id
    (match r.result with
     | Except.error e => Except.error e.msg
     | Except.ok (ans, _) => Except.ok (ans, detect_emotion ans),
     r.state, r.genLog)

/-! ## Helper lemmas: session map -/

lemma lookupSession_ensure_self (m : SessionMap) (sid : String) :
    lookupSession (ensureSession m sid) sid = some (historyOf m sid) := by
  unfold ensureSession hasSession historyOf
  cases hl : lookupSession m sid with
  | some v => simp [hl]
  | none => simp [hl, lookupSession]

lemma lookupSession_ensure_ne (m : SessionMap) (sid s : String) (h : s ≠ sid) :
    lookupSession (ensureSession m sid) s = lookupSession m s := by
  unfold ensureSession
  cases hb : hasSession m sid with
  | true => simp
  | false =>
    have hne : sid ≠ s := fun hh => h hh.symm
    simp [lookupSession, hne]

lemma lookupSession_append_self (m : SessionMap) (sid : String) (t : Turn) :
    lookupSession (appendTurn m sid t) sid
      = (lookupSession m sid).map (fun v => v ++ [t]) := by
  induction m with
  | nil => rfl
  | cons p rest ih =>
    obtain ⟨k, v⟩ := p
    by_cases hk : k = sid
    · subst hk
      simp only [appendTurn, List.map_cons, if_true]
      simp [lookupSession]
    · simp only [appendTurn, List.map_cons, if_neg hk] at ih ⊢
      simp [lookupSession, hk, ih]

lemma lookupSession_append_ne (m : SessionMap) (sid s : String) (t : Turn)
    (h : s ≠ sid) :
    lookupSession (appendTurn m sid t) s = lookupSession m s := by
  induction m with
  | nil => rfl
  | cons p rest ih =>
    obtain ⟨k, v⟩ := p
    by_cases hk : k = sid
    · subst hk
      have hks : k ≠ s := fun hh => h hh.symm
      simp only [appendTurn, List.map_cons, if_true]
      simp only [lookupSession]
      rw [if_neg hks, if_neg hks]
      exact ih
    · simp only [appendTurn, List.map_cons, if_neg hk] at ih ⊢
      by_cases hks : k = s
      · simp [lookupSession, hks]
      · simp [lookupSession, hks, ih]

lemma historyOf_ensure (m : SessionMap) (sid s : String) :
    historyOf (ensureSession m sid) s = historyOf m s := by
  by_cases h : s = sid
  · subst h
    simp [historyOf, lookupSession_ensure_self m s]
  · simp [historyOf, lookupSession_ensure_ne m sid s h]

lemma historyOf_append_self (m : SessionMap) (sid : String) (t : Turn) :
    historyOf (appendTurn (ensureSession m sid) sid t) sid
      = historyOf m sid ++ [t] := by
  simp [historyOf, lookupSession_append_self, lookupSession_ensure_self]

lemma historyOf_append_ne (m : SessionMap) (sid s : String) (t : Turn)
    (h : s ≠ sid) :
    historyOf (appendTurn m sid t) s = historyOf m s := by
  simp [historyOf, lookupSession_append_ne m sid s t h]

/-! ## Helper lemmas: chat behaviour -/

lemma chat_all_fail (gen : String → Except GenErr String)
    (retr : String → List Chunk) (m : SessionMap) (q sid : String) (e : GenErr)
    (hg : ∀ p, gen p = Except.error e) :
    (chat gen retr m q sid).result = Except.error e ∧
    (chat gen retr m q sid).state = ensureSession m sid := by
  simp only [chat, condenseQuery]
  by_cases hh : (historyOf (ensureSession m sid) sid).isEmpty
  · simp [hh, hg]
  · simp [hh, hg]

lemma chat_error_state (gen : String → Except GenErr String)
    (retr : String → List Chunk) (m : SessionMap) (q sid : String) (e : GenErr)
    (hr : (chat gen retr m q sid).result = Except.error e) :
    (chat gen retr m q sid).state = ensureSession m sid := by
  simp only [chat, condenseQuery] at hr ⊢
  by_cases hh : (historyOf (ensureSession m sid) sid).isEmpty
  · simp only [hh, if_true] at hr ⊢
    cases hgen : gen (chatPrompt (retr q) (historyOf (ensureSession m sid) sid) q) with
    | error e2 => simp [hgen]
    | ok a => simp [hgen] at hr
  · simp only [hh, if_false] at hr ⊢
    cases hc : gen (condensePrompt (historyOf (ensureSession m sid) sid) q) with
    | error e2 => simp [hc]
    | ok cq =>
      simp only [hc] at hr ⊢
      cases hgen : gen (chatPrompt (retr cq) (historyOf (ensureSession m sid) sid) q) with
      | error e2 => simp [hgen]
      | ok a => simp [hgen] at hr

lemma chat_ok_state (gen : String → Except GenErr String)
    (retr : String → List Chunk) (m : SessionMap) (q sid : String)
    (hg : ∀ p, ∃ a, gen p = Except.ok a) :
    ∃ t, (chat gen retr m q sid).state = appendTurn (ensureSession m sid) sid t := by
  simp only [chat, condenseQuery]
  by_cases hh : (historyOf (ensureSession m sid) sid).isEmpty
  · obtain ⟨b, hb⟩ := hg (chatPrompt (retr q) (historyOf (ensureSession m sid) sid) q)
    refine ⟨⟨q, b⟩, ?_⟩
    simp [hh, hb]
  · obtain ⟨a, ha⟩ := hg (condensePrompt (historyOf (ensureSession m sid) sid) q)
    obtain ⟨b, hb⟩ := hg (chatPrompt (retr a) (historyOf (ensureSession m sid) sid) q)
    refine ⟨⟨q, b⟩, ?_⟩
    simp [hh, ha, hb]

lemma runChats_ok_length (retr : String → List Chunk) (sid : String) :
    ∀ (steps : List ((String → Except GenErr String) × String)) (m : SessionMap),
      (∀ gq ∈ steps, ∀ p, ∃ a, gq.1 p = Except.ok a) →
      (historyOf (runChats retr sid m steps) sid).length
        = (historyOf m sid).length + steps.length := by
  intro steps
  induction steps with
  | nil => intro m _; simp [runChats]
  | cons gq rest ih =>
    intro m hok
    obtain ⟨g, q⟩ := gq
    have hg : ∀ p, ∃ a, g p = Except.ok a := fun p => hok (g, q) (List.mem_cons_self _ _) p
    obtain ⟨t, ht⟩ := chat_ok_state g retr m q sid hg
    have hrest : ∀ gq ∈ rest, ∀ p, ∃ a, gq.1 p = Except.ok a :=
      fun gq hmem p => hok gq (List.mem_cons_of_mem _ hmem) p
    simp only [runChats, ht]
    rw [ih _ hrest, historyOf_append_self]
    simp [List.length_append]
    omega

/-! ## Helper lemmas: substring containment in prompts -/

/-- The system instruction shared by the prompts of both protocols. -/
def sysInstruction : String :=
  "You are a friendly AI tutor. Answer clearly and concisely."

lemma str_infix_mid (a s b : String) : s.data <:+: (a ++ s ++ b).data := by
  refine ⟨a.data, b.data, ?_⟩
  simp [String.data_append]

lemma str_infix_pre (s b : String) : s.data <:+: (s ++ b).data := by
  refine ⟨[], b.data, ?_⟩
  simp [String.data_append]

lemma str_infix_suf (a s : String) : s.data <:+: (a ++ s).data := by
  refine ⟨a.data, [], ?_⟩
  simp [String.data_append]

lemma str_infix_of_eq (a s b t : String) (h : t = a ++ s ++ b) :
    s.data <:+: t.data := by
  rw [h]; exact str_infix_mid a s b

lemma str_infix_of_eq_pre (s b t : String) (h : t = s ++ b) :
    s.data <:+: t.data := by
  rw [h]; exact str_infix_pre s b

lemma str_infix_of_eq_suf (a s t : String) (h : t = a ++ s) :
    s.data <:+: t.data := by
  rw [h]; exact str_infix_suf a s

lemma text_infix_join (d : Chunk) :
    ∀ docs : List Chunk, d ∈ docs → d.text.data <:+: (joinContext docs).data
  | [], h => absurd h (List.not_mem_nil d)
  | [c], h => by
    have hd : d = c := List.mem_singleton.mp h
    subst hd
    show d.text.data <:+: d.text.data
    exact List.infix_refl _
  | c :: e :: r2, h => by
    rcases List.mem_cons.mp h with hd | ht
    · subst hd
      show d.text.data <:+: (d.text ++ (delim ++ joinContext (e :: r2))).data
      exact str_infix_pre _ _
    · have ih := text_infix_join d (e :: r2) ht
      refine ih.trans ?_
      show (joinContext (e :: r2)).data <:+: (c.text ++ (delim ++ joinContext (e :: r2))).data
      exact str_infix_of_eq_suf (c.text ++ delim) _ _ (by simp [String.append_assoc])

lemma question_infix_renderTurn (t : Turn) :
    t.question.data <:+: (renderTurn t).data :=
  str_infix_of_eq "Human: " t.question ("\nAssistant: " ++ t.answer) _
    (by simp [renderTurn, String.append_assoc])

lemma answer_infix_renderTurn (t : Turn) :
    t.answer.data <:+: (renderTurn t).data :=
  str_infix_of_eq_suf ("Human: " ++ t.question ++ "\nAssistant: ") t.answer _
    (by simp [renderTurn, String.append_assoc])

lemma turn_infix_renderHistory (t : Turn) :
    ∀ hist : List Turn, t ∈ hist → (renderTurn t).data <:+: (renderHistory hist).data
  | [], h => absurd h (List.not_mem_nil t)
  | [u], h => by
    have hd : t = u := List.mem_singleton.mp h
    subst hd
    show (renderTurn t).data <:+: (renderTurn t).data
    exact List.infix_refl _
  | u :: w :: r2, h => by
    rcases List.mem_cons.mp h with hd | ht
    · subst hd
      show (renderTurn t).data <:+: (renderTurn t ++ ("\n" ++ renderHistory (w :: r2))).data
      exact str_infix_pre _ _
    · have ih := turn_infix_renderHistory t (w :: r2) ht
      refine ih.trans ?_
      show (renderHistory (w :: r2)).data <:+: (renderTurn u ++ ("\n" ++ renderHistory (w :: r2))).data
      exact str_infix_of_eq_suf (renderTurn u ++ "\n") _ _ (by simp [String.append_assoc])

lemma sysInstruction_infix_chatPrompt (docs : List Chunk) (hist : List Turn)
    (q : String) : sysInstruction.data <:+: (chatPrompt docs hist q).data :=
  str_infix_of_eq_pre sysInstruction
    (delim ++ (joinContext docs ++ (delim ++ (renderHistory hist ++ (delim ++ q))))) _
    (by simp [chatPrompt, sysInstruction, String.append_assoc])

lemma join_infix_chatPrompt (docs : List Chunk) (hist : List Turn)
    (q : String) : (joinContext docs).data <:+: (chatPrompt docs hist q).data :=
  str_infix_of_eq (sysInstruction ++ delim) (joinContext docs)
    (delim ++ (renderHistory hist ++ (delim ++ q))) _
    (by simp [chatPrompt, sysInstruction, String.append_assoc])

lemma renderHistory_infix_chatPrompt (docs : List Chunk) (hist : List Turn)
    (q : String) : (renderHistory hist).data <:+: (chatPrompt docs hist q).data :=
  str_infix_of_eq (sysInstruction ++ delim ++ joinContext docs ++ delim)
    (renderHistory hist) (delim ++ q) _
    (by simp [chatPrompt, sysInstruction, String.append_assoc])

lemma question_infix_chatPrompt (docs : List Chunk) (hist : List Turn)
    (q : String) : q.data <:+: (chatPrompt docs hist q).data :=
  str_infix_of_eq_suf
    (sysInstruction ++ delim ++ joinContext docs ++ delim ++ renderHistory hist ++ delim) q _
    (by simp [chatPrompt, sysInstruction, String.append_assoc])

lemma chat_state_eq (gen : String → Except GenErr String)
    (retr : String → List Chunk) (m : SessionMap) (q sid : String) :
    (chat gen retr m q sid).state = ensureSession m sid ∨
    ∃ t, (chat gen retr m q sid).state = appendTurn (ensureSession m sid) sid t := by
  simp only [chat, condenseQuery]
  by_cases hh : (historyOf (ensureSession m sid) sid).isEmpty
  · cases hg : gen (chatPrompt (retr q) (historyOf (ensureSession m sid) sid) q) with
    | error e => left; simp [hh, hg]
    | ok b => right; exact ⟨⟨q, b⟩, by simp [hh, hg]⟩
  · cases hc : gen (condensePrompt (historyOf (ensureSession m sid) sid) q) with
    | error e => left; simp [hh, hc]
    | ok cq =>
      cases hg : gen (chatPrompt (retr cq) (historyOf (ensureSession m sid) sid) q) with
      | error e => left; simp [hh, hc, hg]
      | ok b => right; exact ⟨⟨q, b⟩, by simp [hh, hc, hg]⟩

lemma chat_ok_genLog (gen : String → Except GenErr String)
    (retr : String → List Chunk) (m : SessionMap) (q sid : String)
    (hg : ∀ p, ∃ a, gen p = Except.ok a) :
    ∃ docs, (chat gen retr m q sid).genLog.getLast?
      = some (chatPrompt docs (historyOf (ensureSession m sid) sid) q) := by
  simp only [chat, condenseQuery]
  by_cases hh : (historyOf (ensureSession m sid) sid).isEmpty
  · obtain ⟨b, hb⟩ := hg (chatPrompt (retr q) (historyOf (ensureSession m sid) sid) q)
    refine ⟨retr q, ?_⟩
    simp [hh, hb]
  · obtain ⟨a, ha⟩ := hg (condensePrompt (historyOf (ensureSession m sid) sid) q)
    obtain ⟨b, hb⟩ := hg (chatPrompt (retr a) (historyOf (ensureSession m sid) sid) q)
    refine ⟨retr a, ?_⟩
    simp [hh, ha, hb, List.getLast?_concat]

/-! ## Substring helper for the classifier -/

lemma isPre_self_append (n : List Char) : ∀ t, isPre n (n ++ t) = true := by
  induction n with
  | nil => intro t; rfl
  | cons c cs ih => intro t; simp [isPre, ih]

lemma containsSub_append (n : List Char) : ∀ a b, containsSub n (a ++ n ++ b) = true := by
  intro a
  induction a with
  | nil =>
    intro b
    simp only [List.nil_append]
    cases hnb : n ++ b with
    | nil =>
      have hn : n = [] := (List.append_eq_nil.mp hnb).1
      subst hn
      rfl
    | cons x t =>
      have hp := isPre_self_append n b
      rw [hnb] at hp
      simp [containsSub, hp]
  | cons x xs ih =>
    intro b
    have hx := ih b
    rw [List.append_assoc] at hx
    simp only [List.cons_append, List.append_assoc]
    simp [containsSub, hx]

/-! ## Claim theorems -/

/-- C2: retrieval of the top-k chunks returns matches ordered by descending
similarity, ties broken by ascending `(document_id, sequence_index)`
(the order relation `rank` is exactly that, by the third conjunct), and an
empty index yields an empty result rather than an error. -/
theorem retrieval_order_spec :
    (∀ (sim : Chunk → ℚ) (k : Nat), retrieveTopK sim k [] = [])
    ∧ (∀ (sim : Chunk → ℚ) (k : Nat) (index : List Chunk),
        List.Sorted (rank sim) (retrieveTopK sim k index))
    ∧ (∀ (sim : Chunk → ℚ) (a b : Chunk), rank sim a b ↔
        (sim b < sim a ∨ (sim a = sim b ∧
          (a.docId < b.docId ∨ (a.docId = b.docId ∧ a.seqIx ≤ b.seqIx))))) := by
  refine ⟨fun sim k => by simp [retrieveTopK], fun sim k index => ?_, fun sim a b => ?_⟩
  · exact List.Pairwise.sublist (List.take_sublist k _)
      (List.sorted_insertionSort (rank sim) index)
  · simp [rank, simKey, Prod.Lex.le_iff, neg_lt_neg_iff, neg_inj]

/-- Witness for C2 at a concrete similarity function and `k`. -/
theorem retrieval_order_spec_witness :
    retrieveTopK (fun _ => 0) RETRIEVAL_K [] = [] :=
  retrieval_order_spec.1 (fun _ => 0) RETRIEVAL_K

/-- C5: for every configuration with `chunk_overlap >= chunk_size` the
splitter construction fails fast, and a vector-store build with such a
configuration (on a non-empty corpus, so that the splitter is reached)
fails with that error. -/
theorem splitter_overlap_validation :
    (∀ chunk_size chunk_overlap : Nat, chunk_size ≤ chunk_overlap →
      mkTextSplitter chunk_size chunk_overlap
        = Except.error "chunk_overlap must be smaller than chunk_size")
    ∧ (∀ (chunk_size chunk_overlap : Nat)
        (splitWith : Nat → Nat → List Document → List Chunk)
        (docs : List Document),
        chunk_size ≤ chunk_overlap → docs ≠ [] →
        createVectorStore chunk_size chunk_overlap splitWith docs
          = Except.error "chunk_overlap must be smaller than chunk_size") := by
  constructor
  · intro s o h
    simp [mkTextSplitter, h]
  · intro s o sw docs h hne
    have hd : docs.isEmpty = false := by
      cases docs with
      | nil => exact absurd rfl hne
      | cons a l => rfl
    simp [createVectorStore, hd, mkTextSplitter, h]

/-- Witness for C5 at the boundary case `chunk_overlap == chunk_size`. -/
theorem splitter_overlap_validation_witness :
    mkTextSplitter CHUNK_SIZE CHUNK_SIZE
      = Except.error "chunk_overlap must be smaller than chunk_size" :=
  splitter_overlap_validation.1 CHUNK_SIZE CHUNK_SIZE (le_refl _)

/-- C6: a fresh index build whose document enumeration yields no documents
fails with the empty-corpus error, and no index value is produced. -/
theorem empty_corpus_build_fails :
    ∀ (chunk_size chunk_overlap : Nat)
      (splitWith : Nat → Nat → List Document → List Chunk),
      createVectorStore chunk_size chunk_overlap splitWith []
        = Except.error "No documents found in data directory"
      ∧ ∀ idx, createVectorStore chunk_size chunk_overlap splitWith []
          ≠ Except.ok idx := by
  intro s o sw
  refine ⟨rfl, ?_⟩
  intro idx h
  simp [createVectorStore] at h

/-- Witness for C6 at the configured chunk parameters. -/
theorem empty_corpus_build_fails_witness :
    createVectorStore CHUNK_SIZE CHUNK_OVERLAP (fun _ _ _ => []) []
      = Except.error "No documents found in data directory" :=
  (empty_corpus_build_fails CHUNK_SIZE CHUNK_OVERLAP (fun _ _ _ => [])).1

/-- C10: `detect_emotion` is total with range exactly the five mood strings;
classification is a function of the lowercased text (case-insensitive);
keywords match as substrings (not whole words); and the categories are
checked in the fixed priority order happy, explaining, thinking, confused,
so a happy keyword wins over every other category. -/
theorem detect_emotion_spec :
    (∀ t : String, detect_emotion t = "happy" ∨ detect_emotion t = "explaining"
      ∨ detect_emotion t = "thinking" ∨ detect_emotion t = "confused"
      ∨ detect_emotion t = "neutral")
    ∧ (∀ s t : String, lowerStr s = lowerStr t → detect_emotion s = detect_emotion t)
    ∧ (∀ a w b : String, containsStr w (a ++ w ++ b) = true)
    ∧ (∀ t : String, happy_keywords.any (fun w => containsStr w (lowerStr t)) = true →
        detect_emotion t = "happy")
    ∧ (∀ t : String, happy_keywords.any (fun w => containsStr w (lowerStr t)) = false →
        explaining_keywords.any (fun w => containsStr w (lowerStr t)) = true →
        detect_emotion t = "explaining")
    ∧ (∀ t : String, happy_keywords.any (fun w => containsStr w (lowerStr t)) = false →
        explaining_keywords.any (fun w => containsStr w (lowerStr t)) = false →
        thinking_keywords.any (fun w => containsStr w (lowerStr t)) = true →
        detect_emotion t = "thinking")
    ∧ (∀ t : String, happy_keywords.any (fun w => containsStr w (lowerStr t)) = false →
        explaining_keywords.any (fun w => containsStr w (lowerStr t)) = false →
        thinking_keywords.any (fun w => containsStr w (lowerStr t)) = false →
        confused_keywords.any (fun w => containsStr w (lowerStr t)) = true →
        detect_emotion t = "confused")
    ∧ (∀ t : String, happy_keywords.any (fun w => containsStr w (lowerStr t)) = false →
        explaining_keywords.any (fun w => containsStr w (lowerStr t)) = false →
        thinking_keywords.any (fun w => containsStr w (lowerStr t)) = false →
        confused_keywords.any (fun w => containsStr w (lowerStr t)) = false →
        detect_emotion t = "neutral") := by
  refine ⟨?_, ?_, ?_, ?_, ?_, ?_, ?_, ?_⟩
  · intro t
    simp only [detect_emotion]
    split_ifs <;> simp
  · intro s t h
    simp only [detect_emotion, h]
  · intro a w b
    have h := containsSub_append w.data a.data b.data
    rw [List.append_assoc] at h
    simp only [containsStr, String.data_append, List.append_assoc]
    exact h
  · intro t h
    simp [detect_emotion, h]
  · intro t h1 h2
    simp [detect_emotion, h1, h2]
  · intro t h1 h2 h3
    simp [detect_emotion, h1, h2, h3]
  · intro t h1 h2 h3 h4
    simp [detect_emotion, h1, h2, h3, h4]
  · intro t h1 h2 h3 h4
    simp [detect_emotion, h1, h2, h3, h4]

/-- Witness for C10: concrete classifications through the priority rules. -/
theorem detect_emotion_spec_witness :
    detect_emotion "Great, because it is simple" = "happy"
    ∧ detect_emotion "zzz" = "neutral" :=
  ⟨detect_emotion_spec.2.2.2.1 "Great, because it is simple" (by decide),
   detect_emotion_spec.2.2.2.2.2.2.2 "zzz" (by decide) (by decide) (by decide) (by decide)⟩

/-- C8: the single-query protocol sends exactly one prompt to the generative
model; that prompt is the system instruction, the chunk texts joined in
retrieval order by the `"\n\n"` delimiter, and the question; and on success
the model output is returned verbatim together with the retrieved chunks
(a failure propagates). -/
theorem query_protocol_spec (gen : String → Except GenErr String)
    (retr : String → List Chunk) (q : String) :
    (query gen retr q).genLog = [queryPrompt (retr q) q]
    ∧ queryPrompt (retr q) q
        = sysInstruction ++ "\n\nContext: " ++ joinContext (retr q)
          ++ "\n\nQuestion: " ++ q ++ "\n\nAnswer:"
    ∧ (∀ d ∈ retr q, d.text.data <:+: (queryPrompt (retr q) q).data)
    ∧ q.data <:+: (queryPrompt (retr q) q).data
    ∧ (∀ a, gen (queryPrompt (retr q) q) = Except.ok a →
        (query gen retr q).result = Except.ok (a, retr q))
    ∧ (∀ e, gen (queryPrompt (retr q) q) = Except.error e →
        (query gen retr q).result = Except.error e) := by
  refine ⟨?_, ?_, ?_, ?_, ?_, ?_⟩
  · simp only [query]
    cases hg : gen (queryPrompt (retr q) q) <;> simp [hg]
  · have hlit : "You are a friendly AI tutor. Answer clearly and concisely.\n\nContext: "
        = sysInstruction ++ "\n\nContext: " := by decide
    simp [queryPrompt, hlit, String.append_assoc]
  · intro d hd
    refine (text_infix_join d (retr q) hd).trans ?_
    exact str_infix_of_eq
      "You are a friendly AI tutor. Answer clearly and concisely.\n\nContext: "
      (joinContext (retr q)) ("\n\nQuestion: " ++ q ++ "\n\nAnswer:") _
      (by simp [queryPrompt, String.append_assoc])
  · exact str_infix_of_eq
      ("You are a friendly AI tutor. Answer clearly and concisely.\n\nContext: "
        ++ joinContext (retr q) ++ "\n\nQuestion: ") q "\n\nAnswer:" _
      (by simp [queryPrompt, String.append_assoc])
  · intro a ha
    simp [query, ha]
  · intro e he
    simp [query, he]

/-- Witness for C8 at a concrete generator, retriever and question. -/
theorem query_protocol_spec_witness :
    (query (fun _ => Except.ok "ans") (fun _ => [⟨"d1", 0, "txt"⟩]) "What?").result
      = Except.ok ("ans", [⟨"d1", 0, "txt"⟩]) :=
  (query_protocol_spec (fun _ => Except.ok "ans")
    (fun _ => [⟨"d1", 0, "txt"⟩]) "What?").2.2.2.2.1 "ans" rfl

/-- C9: an empty or missing question is rejected with `InvalidRequest` by
both endpoints before any retrieval or generation work (the result is the
same for every generator and retriever, no prompt is ever sent, and the
session state is untouched); a non-empty question is exactly what validation
accepts. -/
theorem invalid_request_rejected :
    (∀ gen retr, query_endpoint gen retr none = (Except.error "InvalidRequest", []))
    ∧ (∀ gen retr, query_endpoint gen retr (some "")
        = (Except.error "InvalidRequest", []))
    ∧ (∀ gen retr m sidq, chat_endpoint gen retr m none sidq
        = (Except.error "InvalidRequest", m, []))
    ∧ (∀ gen retr m sidq, chat_endpoint gen retr m (some "") sidq
        = (Except.error "InvalidRequest", m, []))
    ∧ (∀ s : String, (∃ r, parseQueryRequest (some s) = Except.ok r) ↔ 1 ≤ s.length)
    ∧ (∀ (s : String) (sid : Option String),
        (∃ r, parseChatRequest (some s) sid = Except.ok r) ↔ 1 ≤ s.length) := by
  refine ⟨fun gen retr => rfl, fun gen retr => rfl,
    fun gen retr m sidq => rfl, fun gen retr m sidq => rfl, ?_, ?_⟩
  · intro s
    constructor
    · rintro ⟨r, hr⟩
      by_contra h
      simp [parseQueryRequest, h] at hr
    · intro h
      exact ⟨⟨s⟩, by simp [parseQueryRequest, h]⟩
  · intro s sid
    constructor
    · rintro ⟨r, hr⟩
      by_contra h
      simp [parseChatRequest, h] at hr
    · intro h
      exact ⟨⟨s, sid.getD "default"⟩, by simp [parseChatRequest, h]⟩

/-- Witness for C9: the empty question is rejected at concrete collaborators. -/
theorem invalid_request_rejected_witness :
    query_endpoint (fun _ => Except.ok "a") (fun _ => []) (some "")
      = (Except.error "InvalidRequest", []) :=
  invalid_request_rejected.2.1 (fun _ => Except.ok "a") (fun _ => [])

/-- C4: with empty history the condensed query is the raw question (and no
model call is made to condense); with non-empty history the question is
condensed by the generative model from the history-and-question prompt alone
(the condensation step takes no retrieval input); and an empty-history chat
retrieves with the raw question. -/
theorem condensed_query_semantics :
    (∀ (gen : String → Except GenErr String) (q : String),
        condenseQuery gen [] q = (Except.ok q, []))
    ∧ (∀ (gen : String → Except GenErr String) (hist : List Turn) (q : String),
        hist ≠ [] →
        condenseQuery gen hist q
          = (gen (condensePrompt hist q), [condensePrompt hist q]))
    ∧ (∀ (gen : String → Except GenErr String) (retr : String → List Chunk)
        (m : SessionMap) (q sid : String) (a : String) (docs : List Chunk),
        historyOf (ensureSession m sid) sid = [] →
        (chat gen retr m q sid).result = Except.ok (a, docs) →
        docs = retr q) := by
  refine ⟨fun gen q => rfl, ?_, ?_⟩
  · intro gen hist q h
    have hh : hist.isEmpty = false := by
      cases hist with
      | nil => exact absurd rfl h
      | cons t rest => rfl
    simp [condenseQuery, hh]
  · intro gen retr m q sid a docs hh hr
    simp only [chat, condenseQuery, hh] at hr
    simp only [List.isEmpty_nil, if_true] at hr
    cases hgen : gen (chatPrompt (retr q) [] q) with
    | error e =>
      rw [hgen] at hr
      simp at hr
    | ok b =>
      rw [hgen] at hr
      simp at hr
      exact hr.2.symm

/-- Witness for C4: a first-turn chat on a fresh session retrieves with the
raw question. -/
theorem condensed_query_semantics_witness :
    ([⟨"d1", 0, "txt"⟩] : List Chunk) = (fun _ => [⟨"d1", 0, "txt"⟩]) "hi" :=
  condensed_query_semantics.2.2 (fun _ => Except.ok "ans")
    (fun _ => [⟨"d1", 0, "txt"⟩]) [] "hi" "s1" "ans" [⟨"d1", 0, "txt"⟩]
    (by rfl) (by rfl)

/-- C3: the final generation prompt of the conversational protocol contains the
system instruction, the text of every retrieved chunk, the full prior history
(question and answer of every stored turn, rendered chronologically), and the
question; and the prompt the chat run actually sends last to the model is
`chatPrompt` applied to the original, uncondensed question. -/
theorem chat_prompt_contents :
    (∀ (docs : List Chunk) (hist : List Turn) (q : String),
        sysInstruction.data <:+: (chatPrompt docs hist q).data)
    ∧ (∀ (docs : List Chunk) (hist : List Turn) (q : String), ∀ d ∈ docs,
        d.text.data <:+: (chatPrompt docs hist q).data)
    ∧ (∀ (docs : List Chunk) (hist : List Turn) (q : String),
        (renderHistory hist).data <:+: (chatPrompt docs hist q).data)
    ∧ (∀ (docs : List Chunk) (hist : List Turn) (q : String), ∀ t ∈ hist,
        t.question.data <:+: (chatPrompt docs hist q).data
        ∧ t.answer.data <:+: (chatPrompt docs hist q).data)
    ∧ (∀ (docs : List Chunk) (hist : List Turn) (q : String),
        q.data <:+: (chatPrompt docs hist q).data)
    ∧ (∀ (gen : String → Except GenErr String) (retr : String → List Chunk)
        (m : SessionMap) (q sid : String),
        (∀ p, ∃ a, gen p = Except.ok a) →
        ∃ docs, (chat gen retr m q sid).genLog.getLast?
          = some (chatPrompt docs (historyOf (ensureSession m sid) sid) q)) := by
  refine ⟨sysInstruction_infix_chatPrompt, ?_, renderHistory_infix_chatPrompt,
    ?_, question_infix_chatPrompt, chat_ok_genLog⟩
  · intro docs hist q d hd
    exact (text_infix_join d docs hd).trans (join_infix_chatPrompt docs hist q)
  · intro docs hist q t ht
    have hturn := turn_infix_renderHistory t hist ht
    have hhist := renderHistory_infix_chatPrompt docs hist q
    exact ⟨((question_infix_renderTurn t).trans hturn).trans hhist,
      ((answer_infix_renderTurn t).trans hturn).trans hhist⟩

/-- Witness for C3: a concrete chunk text and stored turn are contained in a
concrete chat prompt, and the last prompt of a concrete all-ok chat run is the
chat prompt over the original question. -/
theorem chat_prompt_contents_witness :
    (Chunk.mk "d1" 0 "txt").text.data
      <:+: (chatPrompt [⟨"d1", 0, "txt"⟩] [⟨"q1", "a1"⟩] "q2").data
    ∧ ∃ docs,
      (chat (fun _ => Except.ok "ans") (fun _ => []) [("s", [⟨"q1", "a1"⟩])]
          "q2" "s").genLog.getLast?
        = some (chatPrompt docs
            (historyOf (ensureSession [("s", [⟨"q1", "a1"⟩])] "s") "s") "q2") :=
  ⟨chat_prompt_contents.2.1 [⟨"d1", 0, "txt"⟩] [⟨"q1", "a1"⟩] "q2"
      ⟨"d1", 0, "txt"⟩ (by simp),
   chat_prompt_contents.2.2.2.2.2 (fun _ => Except.ok "ans") (fun _ => [])
      [("s", [⟨"q1", "a1"⟩])] "q2" "s" (fun p => ⟨"ans", rfl⟩)⟩

/-- C7: a chat call on session `A` leaves the history of every other session
unchanged; `get_or_create` creates a session with an empty turn list on first
reference, leaves the map untouched when the session exists, and never
changes the stored history it hands back. -/
theorem session_isolation (gen : String → Except GenErr String)
    (retr : String → List Chunk) (m : SessionMap) (q A B : String)
    (h : A ≠ B) :
    historyOf (chat gen retr m q A).state B = historyOf m B
    ∧ (hasSession m B = false → historyOf (ensureSession m B) B = [])
    ∧ (hasSession m B = true → ensureSession m B = m)
    ∧ historyOf (ensureSession m B) B = historyOf m B := by
  refine ⟨?_, ?_, ?_, historyOf_ensure m B B⟩
  · rcases chat_state_eq gen retr m q A with hs | ⟨t, hs⟩
    · rw [hs, historyOf_ensure]
    · rw [hs, historyOf_append_ne _ _ _ _ (Ne.symm h), historyOf_ensure]
  · intro hb
    simp [ensureSession, hb, historyOf, lookupSession]
  · intro hb
    simp [ensureSession, hb]

/-- Witness for C7: a chat call on session `"a"` leaves session `"b"`. -/
theorem session_isolation_witness :
    historyOf (chat (fun _ => Except.ok "ans") (fun _ => [])
        [("b", [⟨"q0", "a0"⟩])] "q1" "a").state "b"
      = historyOf [("b", [⟨"q0", "a0"⟩])] "b" :=
  (session_isolation (fun _ => Except.ok "ans") (fun _ => [])
    [("b", [⟨"q0", "a0"⟩])] "q1" "a" "b" (by decide)).1

/-- C1: if the generative model fails on a turn, the chat operation fails
with that error and the stored history of every session is exactly what it was
before the call; in particular after `N` successful chat calls on a session
followed by a failing call, the session still holds exactly the `N` turns
recorded before the failure (plus whatever it started with). -/
theorem chat_failure_semantics (retr : String → List Chunk) (sid : String) :
    (∀ (gen : String → Except GenErr String) (m : SessionMap) (q : String)
        (e : GenErr), (∀ p, gen p = Except.error e) →
      (chat gen retr m q sid).result = Except.error e
      ∧ ∀ s, historyOf (chat gen retr m q sid).state s = historyOf m s)
    ∧ (∀ (gen : String → Except GenErr String) (m : SessionMap) (q : String)
        (e : GenErr) (s : String),
        (chat gen retr m q sid).result = Except.error e →
        historyOf (chat gen retr m q sid).state s = historyOf m s)
    ∧ (∀ (steps : List ((String → Except GenErr String) × String))
        (gfail : String → Except GenErr String) (q : String) (e : GenErr)
        (m : SessionMap),
        (∀ gq ∈ steps, ∀ p, ∃ a, gq.1 p = Except.ok a) →
        (∀ p, gfail p = Except.error e) →
        (historyOf (runChats retr sid m steps) sid).length
          = (historyOf m sid).length + steps.length
        ∧ historyOf (chat gfail retr (runChats retr sid m steps) q sid).state sid
          = historyOf (runChats retr sid m steps) sid) := by
  refine ⟨?_, ?_, ?_⟩
  · intro gen m q e hg
    obtain ⟨h1, h2⟩ := chat_all_fail gen retr m q sid e hg
    exact ⟨h1, fun s => by rw [h2, historyOf_ensure]⟩
  · intro gen m q e s hr
    rw [chat_error_state gen retr m q sid e hr, historyOf_ensure]
  · intro steps gfail q e m hok hf
    refine ⟨runChats_ok_length retr sid steps m hok, ?_⟩
    obtain ⟨_, h2⟩ := chat_all_fail gfail retr (runChats retr sid m steps) q sid e hf
    rw [h2, historyOf_ensure]

/-- Witness for C1: one successful turn then a failing one, on an initially
empty session map — history still holds the single recorded turn. -/
theorem chat_failure_semantics_witness :
    (historyOf (runChats (fun _ => []) "s" []
        [(fun _ => Except.ok "a1", "q1")]) "s").length
      = (historyOf ([] : SessionMap) "s").length + 1
    ∧ historyOf (chat (fun _ => Except.error ⟨"boom"⟩) (fun _ => [])
        (runChats (fun _ => []) "s" [] [(fun _ => Except.ok "a1", "q1")])
        "q2" "s").state "s"
      = historyOf (runChats (fun _ => []) "s" []
          [(fun _ => Except.ok "a1", "q1")]) "s" :=
  (chat_failure_semantics (fun _ => []) "s").2.2
    [(fun _ => Except.ok "a1", "q1")] (fun _ => Except.error ⟨"boom"⟩)
    "q2" ⟨"boom"⟩ []
    (fun gq _ p => ⟨"a1", by
      rcases List.mem_singleton.mp (by assumption) with h
      rw [h]⟩)
    (fun _ => rfl)

end AITutor
